import Mathlib

/-!
Shallow embedding of `src/client/src/components/schedule/EditScheduleModal.tsx`:
a dialog component that edits one weekly schedule entry.  The component keeps a
visible activity selection (`selectedActivity`, React `useState`), a form state
managed by `react-hook-form` (`defaultValues`, `reset`, `setValue`,
`handleSubmit`), and emits `onSave`/`onClose` callbacks.  We model the
component's local state explicitly and its event handlers as pure state
transformers; the `onSave`/`onClose` callbacks become an emitted event list.
-/

namespace EditScheduleModal

/-- Modelled from the spec: `WeekDay` is imported from `@shared/schema`, which is
not among the provided sources.  The spec describes it as "one enumerant of a
fixed closed set representing a day in the scheduling grid". -/
inductive WeekDay
  | segunda | terca | quarta | quinta | sexta | sabado | domingo
deriving DecidableEq, Repr

/-- `interface TimeSlot` (lines 32-35): start/end time-of-day strings. -/
structure TimeSlot where
  startTime : String
  endTime : String
deriving DecidableEq, Repr

/-- `interface Professional` (lines 37-41). -/
structure Professional where
  id : Int
  nome : String
  iniciais : String
deriving DecidableEq, Repr

/-- The `currentActivity` prop's shape (lines 49-54).  The source field `local`
is a Lean keyword, so it is rendered here as `local_`; `observacoes` keeps its
name.  `atividade` is the activity code string. -/
structure CurrentActivity where
  id : Option Int
  atividade : String
  local_ : Option String
  observacoes : Option String
deriving DecidableEq, Repr

/-- Modelled from the spec: `ScheduleFormValues` is the type inferred from
`scheduleFormSchema` in `@shared/schema`, which is not among the provided
sources.  Its fields are the ones the component registers and defaults
(lines 79-88): `professionalId`, `weekday`, `startTime`, `endTime`,
`activityCode`, `location`, `notes`. -/
structure ScheduleFormValues where
  professionalId : Int
  weekday : WeekDay
  startTime : String
  endTime : String
  activityCode : String
  location : String
  notes : String
deriving DecidableEq, Repr

/-- `interface EditScheduleModalProps` (lines 43-57).  `isNew` defaults to
`false` at the destructuring site (line 67); we carry it as a plain `Bool`. -/
structure Props where
  isOpen : Bool
  professional : Option Professional
  timeSlot : Option TimeSlot
  currentActivity : Option CurrentActivity
  weekday : WeekDay
  isNew : Bool
deriving DecidableEq, Repr

/-- One record of the `activityTypes` data fetched by `useQuery` (consumed at
lines 199-203 as `{id, code, name}`). -/
structure ActivityType where
  id : Int
  code : String
  name : String
deriving DecidableEq, Repr

/-- The possible shapes of the `useQuery` result consumed at line 72 and
line 199.  `missing` is an unresolved or failed fetch, where the destructuring
default `data: activityTypes = []` applies; `nonArray` is malformed (non-array)
JSON, rejected by the `Array.isArray` guard at line 199; `array ts` is a
well-formed response. -/
inductive ActivityTypesData
  | missing
  | nonArray
  | array (ts : List ActivityType)
deriving DecidableEq, Repr

/-- JavaScript `s || dflt` on strings: the empty string is falsy. -/
def jsOrStr (s : Option String) (dflt : String) : String :=
  match s with
  | some v => if v = "" then dflt else v
  | none => dflt

/-- JavaScript `n || dflt` on numbers: `0` is falsy (`NaN` is out of scope for
integer ids). -/
def jsOrInt (n : Option Int) (dflt : Int) : Int :=
  match n with
  | some v => if v = 0 then dflt else v
  | none => dflt

/-- `currentActivity?.atividade || "disponivel"` — the expression used for the
`useState` initializer (line 69), the `activityCode` default (line 84), and the
effect's `activityValue` (line 93). -/
def propActivityValue (p : Props) : String :=
  jsOrStr (p.currentActivity.map (·.atividade)) "disponivel"

/-- The form values built from the props: `defaultValues` (lines 79-88) and the
argument of `reset` in the effect (lines 96-104) are the same expressions. -/
def formFromProps (p : Props) : ScheduleFormValues :=
  { professionalId := jsOrInt (p.professional.map (·.id)) 0
    weekday := p.weekday
    startTime := jsOrStr (p.timeSlot.map (·.startTime)) ""
    endTime := jsOrStr (p.timeSlot.map (·.endTime)) ""
    activityCode := propActivityValue p
    location := jsOrStr (p.currentActivity.bind (·.local_)) ""
    notes := jsOrStr (p.currentActivity.bind (·.observacoes)) "" }

/-- Per-field validation errors (`formState.errors`).  Only `startTime`,
`endTime` and `activityCode` have rendered error paragraphs (lines 162, 176,
207); `professionalId` errors exist in the form state but have no rendering. -/
structure FieldErrors where
  startTime : Bool
  endTime : Bool
  activityCode : Bool
  professionalId : Bool
deriving DecidableEq, Repr

/-- No field errors. -/
def noErrors : FieldErrors :=
  { startTime := false, endTime := false, activityCode := false
    professionalId := false }

/-- Modelled from the spec: `scheduleFormSchema` lives in `@shared/schema`,
which is not among the provided sources.  The spec's validation rules:
`startTime` and `endTime` required (the testable properties read "required" as
non-empty), `activityCode` a required non-empty string, `professionalId` a
required positive integer, `weekday` one of the weekday enumerants (guaranteed
here by typing), `location` and `notes` unconstrained. -/
def schemaValid (v : ScheduleFormValues) : Bool :=
  decide (v.startTime ≠ "") && decide (v.endTime ≠ "") &&
    decide (v.activityCode ≠ "") && decide (0 < v.professionalId)

/-- Modelled from the spec: the per-field outcome of running
`scheduleFormSchema`, flagging each failed field. -/
def schemaCheck (v : ScheduleFormValues) : FieldErrors :=
  { startTime := decide (v.startTime = "")
    endTime := decide (v.endTime = "")
    activityCode := decide (v.activityCode = "")
    professionalId := decide (¬ 0 < v.professionalId) }

/-- The component's local state: the `selectedActivity` `useState` (line 69),
the `react-hook-form` form values, and the form's error state. -/
structure ModalState where
  selectedActivity : String
  form : ScheduleFormValues
  errors : FieldErrors
deriving DecidableEq, Repr

/-- The state after the initial render: `useState(currentActivity?.atividade ||
"disponivel")` (line 69) and `useForm` with `defaultValues` (lines 77-88). -/
def initState (p : Props) : ModalState :=
  { selectedActivity := propActivityValue p
    form := formFromProps p
    errors := noErrors }

/-- The `useEffect` body (lines 91-106): when `isOpen` is true, set
`selectedActivity` to `activityValue` and `reset` the whole form from the
current props (clearing errors, as `react-hook-form`'s `reset` does);
otherwise leave the state untouched. -/
def applyEffect (p : Props) (s : ModalState) : ModalState :=
  if p.isOpen then
    { selectedActivity := propActivityValue p
      form := formFromProps p
      errors := noErrors }
  else s

/-- `handleActivityChange` (lines 108-112): `setSelectedActivity(value)` then
`setValue("activityCode", value)`. -/
def handleActivityChange (s : ModalState) (value : String) : ModalState :=
  { s with selectedActivity := value
           form := { s.form with activityCode := value } }

/-- The externally observable callbacks: `onSave(data)` and `onClose()`. -/
inductive Event
  | save (payload : ScheduleFormValues)
  | close
deriving DecidableEq, Repr

/-- `onSubmit` (lines 114-123): spread the validated data, overwrite
`activityCode` with `selectedActivity`, call `onSave(submittedData)` then
`onClose()`. -/
def onSubmit (s : ModalState) (data : ScheduleFormValues) : List Event :=
  [Event.save { data with activityCode := s.selectedActivity }, Event.close]

/-- `handleSubmit(onSubmit)` (line 137) with `react-hook-form` semantics: run
the schema on the current form values; on success clear errors and run
`onSubmit` with the validated data; on failure record the per-field errors,
keep the form values, and call nothing. -/
def handleSubmit (s : ModalState) : ModalState × List Event :=
  if schemaValid s.form then
    ({ s with errors := noErrors }, onSubmit s s.form)
  else
    ({ s with errors := schemaCheck s.form }, [])

/-- The interactions the rendered dialog exposes: choosing an activity in the
`Select` (line 187), editing the registered `startTime`/`endTime` inputs
(lines 159, 173) and `location`/`notes` (lines 216, 225), a props change
firing the effect (lines 91-106), submitting the form (line 137), and
cancelling via the Cancelar button or the dialog's `onOpenChange`
(lines 126, 232). -/
inductive Action
  | selectActivity (value : String)
  | setStartTime (value : String)
  | setEndTime (value : String)
  | setLocation (value : String)
  | setNotes (value : String)
  | propsChange (p : Props)
  | submit
  | cancel
deriving DecidableEq, Repr

/-- One interaction: the state transformer together with the
`onSave`/`onClose` events it emits. -/
def step (s : ModalState) : Action → ModalState × List Event
  | .selectActivity v => (handleActivityChange s v, [])
  | .setStartTime v => ({ s with form := { s.form with startTime := v } }, [])
  | .setEndTime v => ({ s with form := { s.form with endTime := v } }, [])
  | .setLocation v => ({ s with form := { s.form with location := v } }, [])
  | .setNotes v => ({ s with form := { s.form with notes := v } }, [])
  | .propsChange p => (applyEffect p s, [])
  | .submit => handleSubmit s
  | .cancel => (s, [Event.close])

/-- Run a sequence of interactions, concatenating the emitted events. -/
def run (s : ModalState) : List Action → ModalState × List Event
  | [] => (s, [])
  | a :: rest =>
    ((run (step s a).1 rest).1, (step s a).2 ++ (run (step s a).1 rest).2)

/-- The items of the `activityTypes` map at lines 199-203: the fetched list
when the data is an array (the destructuring default `[]` for a missing
result), nothing when the `Array.isArray` guard rejects it. -/
def fetchedItems : ActivityTypesData → List ActivityType
  | .array ts => ts
  | .missing => []
  | .nonArray => []

/-- The `SelectContent` children (lines 194-204): the fixed
`<SelectItem value="disponivel">Disponível</SelectItem>` first, then one item
`(code, name)` per fetched activity type.  Each pair is (value, label). -/
def renderedOptions (d : ActivityTypesData) : List (String × String) :=
  ("disponivel", "Disponível") :: (fetchedItems d).map (fun a => (a.code, a.name))

/-- The option values the `Select` can fire `onValueChange` with: the values of
the rendered items. -/
def renderedValues (d : ActivityTypesData) : List String :=
  "disponivel" :: (fetchedItems d).map (·.code)

/-- The `DialogTitle` text (line 133). -/
def dialogTitle (p : Props) : String :=
  if p.isNew then "Nova Atividade" else "Editar Horário"

/-- The user-visible pieces of the rendered dialog that the claims are about:
the title (line 133), the selectable option list (lines 194-204), and the three
inline error paragraphs (lines 162, 176, 207).  The render contains no element
tied to the fetch outcome other than the option list. -/
structure Rendered where
  title : String
  options : List (String × String)
  startTimeError : Bool
  endTimeError : Bool
  activityCodeError : Bool
deriving DecidableEq, Repr

/-- The render function restricted to the claim-relevant output. -/
def render (p : Props) (s : ModalState) (d : ActivityTypesData) : Rendered :=
  { title := dialogTitle p
    options := renderedOptions d
    startTimeError := s.errors.startTime
    endTimeError := s.errors.endTime
    activityCodeError := s.errors.activityCode }

/-- Boolean membership in a list of strings. -/
def memStr (x : String) : List String → Bool
  | [] => false
  | y :: ys => x == y || memStr x ys

/-- A concrete valid state for witnesses. -/
def wState1 : ModalState :=
  { selectedActivity := "disponivel"
    form := { professionalId := 3, weekday := WeekDay.segunda, startTime := "08:00"
              endTime := "09:00", activityCode := "disponivel", location := "", notes := "" }
    errors := noErrors }

/-- C1: for a draft that passes validation (non-empty times, non-empty activity
code, positive professional id; the weekday is valid by typing), submission
emits exactly one `onSave` — whose payload's `activityCode` equals the visible
selection `selectedActivity` — followed by exactly one `onClose`. -/
theorem claim_C1 (s : ModalState)
    (h1 : s.form.startTime ≠ "") (h2 : s.form.endTime ≠ "")
    (h3 : s.form.activityCode ≠ "") (h4 : 0 < s.form.professionalId) :
    (step s Action.submit).2
      = [Event.save { s.form with activityCode := s.selectedActivity }, Event.close]
    ∧ ({ s.form with activityCode := s.selectedActivity } : ScheduleFormValues).activityCode
      = s.selectedActivity := by
  have hv : schemaValid s.form = true := by
    simp [schemaValid, h1, h2, h3, h4]
  exact ⟨by simp [step, handleSubmit, hv, onSubmit], rfl⟩

/-- Witness for C1 at a concrete valid state. -/
theorem claim_C1_witness :
    (step wState1 Action.submit).2
      = [Event.save { wState1.form with activityCode := wState1.selectedActivity }, Event.close]
    ∧ ({ wState1.form with activityCode := wState1.selectedActivity } : ScheduleFormValues).activityCode
      = wState1.selectedActivity :=
  claim_C1 wState1 (by decide) (by decide) (by decide) (by decide)

/-- C2: when `startTime`, `endTime` or `activityCode` is missing, a submission
attempt emits no `onSave` and no `onClose`, keeps the draft (form values and
visible selection) unchanged, flags an error on each missing required field,
and the rendered dialog shows exactly those field errors. -/
theorem claim_C2 (s : ModalState)
    (h : s.form.startTime = "" ∨ s.form.endTime = "" ∨ s.form.activityCode = "") :
    (step s Action.submit).2 = []
    ∧ ((step s Action.submit).1).form = s.form
    ∧ ((step s Action.submit).1).selectedActivity = s.selectedActivity
    ∧ (s.form.startTime = "" → ((step s Action.submit).1).errors.startTime = true)
    ∧ (s.form.endTime = "" → ((step s Action.submit).1).errors.endTime = true)
    ∧ (s.form.activityCode = "" → ((step s Action.submit).1).errors.activityCode = true)
    ∧ (∀ p d, (render p ((step s Action.submit).1) d).startTimeError
          = ((step s Action.submit).1).errors.startTime
        ∧ (render p ((step s Action.submit).1) d).endTimeError
          = ((step s Action.submit).1).errors.endTime
        ∧ (render p ((step s Action.submit).1) d).activityCodeError
          = ((step s Action.submit).1).errors.activityCode) := by
  have hv : schemaValid s.form = false := by
    rcases h with h | h | h <;> simp [schemaValid, h]
  have hstep : step s Action.submit = ({ s with errors := schemaCheck s.form }, []) := by
    simp [step, handleSubmit, hv]
  rw [hstep]
  refine ⟨rfl, rfl, rfl, ?_, ?_, ?_, fun p d => ⟨rfl, rfl, rfl⟩⟩
  · intro h1; simp [schemaCheck, h1]
  · intro h2; simp [schemaCheck, h2]
  · intro h3; simp [schemaCheck, h3]

/-- A concrete state missing `startTime`, for the C2 witness. -/
def wState2 : ModalState :=
  { selectedActivity := "disponivel"
    form := { professionalId := 3, weekday := WeekDay.quarta, startTime := ""
              endTime := "09:00", activityCode := "disponivel", location := "", notes := "" }
    errors := noErrors }

/-- Witness for C2 at a concrete state with an empty `startTime`. -/
theorem claim_C2_witness :
    (step wState2 Action.submit).2 = []
    ∧ ((step wState2 Action.submit).1).form = wState2.form
    ∧ ((step wState2 Action.submit).1).errors.startTime = true := by
  have h := claim_C2 wState2 (Or.inl rfl)
  exact ⟨h.1, h.2.1, h.2.2.2.1 rfl⟩

/-- C3: whenever the effect fires with `isOpen = true` (on open, or on any
change of `professional`, `timeSlot`, `currentActivity` or `weekday` while
open), the whole draft — visible selection, form values and errors — is reset
from the current props alone; two arbitrary prior states end up identical, so
nothing of the stale state is merged in. -/
theorem claim_C3 (p : Props) (s1 s2 : ModalState) (h : p.isOpen = true) :
    (step s1 (Action.propsChange p)).1
      = { selectedActivity := propActivityValue p, form := formFromProps p, errors := noErrors }
    ∧ (step s1 (Action.propsChange p)).1 = (step s2 (Action.propsChange p)).1 := by
  simp [step, applyEffect, h]

/-- Concrete open props for the C3 witness. -/
def wProps3 : Props :=
  { isOpen := true
    professional := some { id := 7, nome := "Carla", iniciais := "C" }
    timeSlot := some { startTime := "10:00", endTime := "11:00" }
    currentActivity := some { id := some 4, atividade := "consulta"
                              local_ := some "Sala 2", observacoes := none }
    weekday := WeekDay.sexta
    isNew := false }

/-- A second concrete state, distinct from `wState1`, for the C3 witness. -/
def wState3 : ModalState :=
  { selectedActivity := "plantao"
    form := { professionalId := 9, weekday := WeekDay.domingo, startTime := "22:00"
              endTime := "23:00", activityCode := "plantao", location := "UTI", notes := "x" }
    errors := { startTime := true, endTime := false, activityCode := false
                professionalId := false } }

/-- Witness for C3: two different prior states reset to the same props-derived
state. -/
theorem claim_C3_witness :
    (step wState1 (Action.propsChange wProps3)).1
      = { selectedActivity := propActivityValue wProps3, form := formFromProps wProps3
          errors := noErrors }
    ∧ (step wState1 (Action.propsChange wProps3)).1
      = (step wState3 (Action.propsChange wProps3)).1 :=
  claim_C3 wProps3 wState1 wState3 rfl

/-- Concrete props for the C6 scenario: open with `timeSlot =
{startTime: "14:15", endTime: "15:45"}` and no `currentActivity`. -/
def wProps6 : Props :=
  { isOpen := true
    professional := some { id := 1, nome := "Ana", iniciais := "AM" }
    timeSlot := some { startTime := "14:15", endTime := "15:45" }
    currentActivity := none
    weekday := WeekDay.segunda
    isNew := true }

/-- C6: submitting unchanged after opening with `timeSlot = {"14:15","15:45"}`
and no current activity calls `onSave` with `activityCode = "disponivel"`,
`startTime = "14:15"`, `endTime = "15:45"`, `location = ""`, `notes = ""`,
then `onClose`. -/
theorem claim_C6 :
    (run (initState wProps6) [Action.submit]).2
      = [Event.save { professionalId := 1, weekday := WeekDay.segunda, startTime := "14:15"
                      endTime := "15:45", activityCode := "disponivel", location := ""
                      notes := "" },
         Event.close] := by
  decide

/-- C7: for every fetched option list, the rendered selectable list is the
synthetic "disponivel" option first, followed by exactly the fetched
`(code, name)` items. -/
theorem claim_C7 (p : Props) (s : ModalState) (ts : List ActivityType) :
    (render p s (ActivityTypesData.array ts)).options.head? = some ("disponivel", "Disponível")
    ∧ (render p s (ActivityTypesData.array ts)).options.tail
      = ts.map (fun a => (a.code, a.name)) :=
  ⟨rfl, rfl⟩

/-- Unfolding `run` over a cons cell. -/
lemma run_cons (s : ModalState) (a : Action) (rest : List Action) :
    run s (a :: rest)
      = ((run (step s a).1 rest).1, (step s a).2 ++ (run (step s a).1 rest).2) :=
  rfl

/-- Every interaction preserves the agreement between the visible selection and
the form's `activityCode` field. -/
lemma synced_step (s : ModalState) (a : Action)
    (h : s.selectedActivity = s.form.activityCode) :
    ((step s a).1).selectedActivity = ((step s a).1).form.activityCode := by
  cases a with
  | selectActivity v => rfl
  | setStartTime v => exact h
  | setEndTime v => exact h
  | setLocation v => exact h
  | setNotes v => exact h
  | propsChange p =>
    show ((applyEffect p s).selectedActivity) = (applyEffect p s).form.activityCode
    unfold applyEffect
    split
    · rfl
    · exact h
  | submit =>
    show ((handleSubmit s).1).selectedActivity = ((handleSubmit s).1).form.activityCode
    unfold handleSubmit
    split <;> exact h
  | cancel => exact h

/-- The agreement of `synced_step` holds along every interaction sequence. -/
lemma synced_run (acts : List Action) : ∀ s : ModalState,
    s.selectedActivity = s.form.activityCode →
    ((run s acts).1).selectedActivity = ((run s acts).1).form.activityCode := by
  induction acts with
  | nil => exact fun s h => h
  | cons a rest ih =>
    intro s h
    rw [run_cons]
    exact ih (step s a).1 (synced_step s a h)

/-- C4: after any interaction sequence from any props, the visible selection
(`selectedActivity`) and the form's `activityCode` (the hidden registered
field) are identical — the two representations never diverge. -/
theorem claim_C4 (p : Props) (acts : List Action) :
    ((run (initState p) acts).1).selectedActivity
      = ((run (initState p) acts).1).form.activityCode :=
  synced_run acts (initState p) rfl

/-- Concrete props carrying an activity code ("consulta") that is not in the
fetched option set, for the C5 counterexample. -/
def cexProps5 : Props :=
  { isOpen := true
    professional := some { id := 1, nome := "Ana", iniciais := "AM" }
    timeSlot := some { startTime := "08:00", endTime := "09:00" }
    currentActivity := some { id := some 2, atividade := "consulta"
                              local_ := none, observacoes := none }
    weekday := WeekDay.segunda
    isNew := false }

/-- The payload the C5 counterexample run saves. -/
def cexPayload5 : ScheduleFormValues :=
  { professionalId := 1, weekday := WeekDay.segunda, startTime := "08:00"
    endTime := "09:00", activityCode := "consulta", location := "", notes := "" }

/-- C5 counterexample: with an empty fetched option set, opening with a
current activity "consulta" and submitting unchanged saves a payload whose
`activityCode` is neither the "disponivel" sentinel nor the code of any
fetched option. -/
theorem claim_C5_counterexample :
    (run (initState cexProps5) [Action.submit]).2 = [Event.save cexPayload5, Event.close]
    ∧ memStr cexPayload5.activityCode (renderedValues (ActivityTypesData.array [])) = false := by
  decide

/-- The activity codes a submission's payload can carry: the value inherited
from the props plus the rendered option values (sentinel first). -/
def allowedValues (p : Props) (d : ActivityTypesData) : List String :=
  propActivityValue p :: renderedValues d

/-- An interaction is well-formed for props `p` and fetched data `d` when each
selection picks a rendered option value and each props change carries an
activity value already accounted for. -/
def actionOk (p : Props) (d : ActivityTypesData) : Action → Bool
  | .selectActivity v => memStr v (renderedValues d)
  | .propsChange p2 => memStr (propActivityValue p2) (allowedValues p d)
  | _ => true

/-- Membership in a tail gives membership in the whole list. -/
lemma memStr_cons_of (x y : String) (ys : List String) (h : memStr x ys = true) :
    memStr x (y :: ys) = true := by
  simp [memStr, h]

/-- One well-formed interaction keeps the visible selection inside
`allowedValues` and only saves payloads whose code is in `allowedValues`. -/
lemma allowed_step (p : Props) (d : ActivityTypesData) (s : ModalState) (a : Action)
    (hs : memStr s.selectedActivity (allowedValues p d) = true)
    (ha : actionOk p d a = true) :
    memStr ((step s a).1).selectedActivity (allowedValues p d) = true
    ∧ ∀ pl, Event.save pl ∈ (step s a).2 →
        memStr pl.activityCode (allowedValues p d) = true := by
  cases a with
  | selectActivity v =>
    refine ⟨memStr_cons_of v _ _ ha, ?_⟩
    intro pl hpl
    simp [step] at hpl
  | setStartTime v => exact ⟨hs, fun pl hpl => by simp [step] at hpl⟩
  | setEndTime v => exact ⟨hs, fun pl hpl => by simp [step] at hpl⟩
  | setLocation v => exact ⟨hs, fun pl hpl => by simp [step] at hpl⟩
  | setNotes v => exact ⟨hs, fun pl hpl => by simp [step] at hpl⟩
  | propsChange p2 =>
    refine ⟨?_, fun pl hpl => by simp [step] at hpl⟩
    by_cases hop : p2.isOpen
    · simpa [step, applyEffect, hop] using ha
    · simpa [step, applyEffect, hop] using hs
  | submit =>
    constructor
    · show memStr ((handleSubmit s).1).selectedActivity (allowedValues p d) = true
      unfold handleSubmit
      split <;> exact hs
    · intro pl hpl
      show memStr pl.activityCode (allowedValues p d) = true
      have hpl2 : Event.save pl ∈ (handleSubmit s).2 := hpl
      unfold handleSubmit at hpl2
      split at hpl2
      · simp only [onSubmit, List.mem_cons, List.not_mem_nil, or_false] at hpl2
        rcases hpl2 with h1 | h1
        · cases h1
          exact hs
        · cases h1
      · simp at hpl2
  | cancel =>
    refine ⟨hs, ?_⟩
    intro pl hpl
    simp [step] at hpl

/-- The guarantee of `allowed_step` extended along a run. -/
lemma allowed_run (p : Props) (d : ActivityTypesData) (acts : List Action) :
    ∀ s : ModalState,
      memStr s.selectedActivity (allowedValues p d) = true →
      (∀ a ∈ acts, actionOk p d a = true) →
      memStr ((run s acts).1).selectedActivity (allowedValues p d) = true
      ∧ ∀ pl, Event.save pl ∈ (run s acts).2 →
          memStr pl.activityCode (allowedValues p d) = true := by
  induction acts with
  | nil =>
    intro s hs _
    exact ⟨hs, fun pl hpl => by simp [run] at hpl⟩
  | cons a rest ih =>
    intro s hs hacts
    have ha : actionOk p d a = true := hacts a (List.mem_cons_self a rest)
    have h1 := allowed_step p d s a hs ha
    have h2 := ih (step s a).1 h1.1 (fun b hb => hacts b (List.mem_cons_of_mem a hb))
    rw [run_cons]
    refine ⟨h2.1, ?_⟩
    intro pl hpl
    rcases List.mem_append.mp hpl with hm | hm
    · exact h1.2 pl hm
    · exact h2.2 pl hm

/-- C5 as amended: in a run whose selections pick rendered option values and
whose props changes carry accounted-for activity values, every saved payload's
`activityCode` is the "disponivel" sentinel, the code of a fetched option, or
an activity code inherited from props — the code performs no cross-check
against the live option set, so the inherited value need not be in it. -/
theorem claim_C5_amended (p : Props) (d : ActivityTypesData) (acts : List Action)
    (h : ∀ a ∈ acts, actionOk p d a = true) :
    ∀ pl, Event.save pl ∈ (run (initState p) acts).2 →
      memStr pl.activityCode (allowedValues p d) = true := by
  have h0 : memStr (initState p).selectedActivity (allowedValues p d) = true := by
    simp [initState, allowedValues, memStr]
  exact (allowed_run p d acts (initState p) h0 h).2

/-- Concrete props for the C5 witness run. -/
def wProps5 : Props :=
  { isOpen := true
    professional := some { id := 2, nome := "Bia", iniciais := "B" }
    timeSlot := some { startTime := "10:00", endTime := "11:00" }
    currentActivity := none
    weekday := WeekDay.terca
    isNew := false }

/-- Concrete fetched data for the C5 witness run. -/
def wData5 : ActivityTypesData :=
  .array [{ id := 1, code := "fisio", name := "Fisioterapia" }]

/-- Concrete interactions for the C5 witness run: pick the fetched option,
then submit. -/
def wActs5 : List Action :=
  [Action.selectActivity "fisio", Action.submit]

/-- The payload the C5 witness run saves. -/
def wPayload5 : ScheduleFormValues :=
  { professionalId := 2, weekday := WeekDay.terca, startTime := "10:00"
    endTime := "11:00", activityCode := "fisio", location := "", notes := "" }

/-- Witness for the amended C5 on a concrete run. -/
theorem claim_C5_witness :
    Event.save wPayload5 ∈ (run (initState wProps5) wActs5).2
    ∧ memStr wPayload5.activityCode (allowedValues wProps5 wData5) = true :=
  ⟨by decide, claim_C5_amended wProps5 wData5 wActs5 (by decide) wPayload5 (by decide)⟩

/-- C8: when the option fetch is missing or malformed, the rendered option
list degrades to the lone "disponivel" sentinel; the title is unaffected by
the fetch outcome, and the only user-visible errors are the form's own field
errors, independent of the fetch. -/
theorem claim_C8 (p : Props) (s : ModalState) (d : ActivityTypesData)
    (h : d = ActivityTypesData.missing ∨ d = ActivityTypesData.nonArray) :
    (render p s d).options = [("disponivel", "Disponível")]
    ∧ (∀ d2, (render p s d).title = (render p s d2).title)
    ∧ (render p s d).startTimeError = s.errors.startTime
    ∧ (render p s d).endTimeError = s.errors.endTime
    ∧ (render p s d).activityCodeError = s.errors.activityCode := by
  rcases h with h | h <;> subst h <;>
    exact ⟨rfl, fun d2 => rfl, rfl, rfl, rfl⟩

/-- Witness for C8 at a concrete failed fetch. -/
theorem claim_C8_witness :
    (render wProps6 wState1 ActivityTypesData.missing).options = [("disponivel", "Disponível")]
    ∧ (render wProps6 wState1 ActivityTypesData.missing).startTimeError
      = wState1.errors.startTime := by
  have h := claim_C8 wProps6 wState1 ActivityTypesData.missing (Or.inl rfl)
  exact ⟨h.1, h.2.2.1⟩

/-- Replace the `isNew` flag inside a props-change interaction, leaving every
other interaction untouched. -/
def withIsNew (b : Bool) : Action → Action
  | .propsChange p => .propsChange { p with isNew := b }
  | a => a

/-- `isNew` plays no part in any interaction's semantics. -/
lemma step_withIsNew (s : ModalState) (b : Bool) (a : Action) :
    step s (withIsNew b a) = step s a := by
  cases a <;> rfl

/-- `isNew` plays no part in any run's semantics. -/
lemma run_withIsNew (b : Bool) (acts : List Action) : ∀ s : ModalState,
    run s (acts.map (withIsNew b)) = run s acts := by
  induction acts with
  | nil => exact fun s => rfl
  | cons a rest ih =>
    intro s
    show run s (withIsNew b a :: rest.map (withIsNew b)) = run s (a :: rest)
    rw [run_cons, run_cons, step_withIsNew, ih]

/-- C9: two runs that differ only in the `isNew` flag (in the initial props and
in every props change) produce identical states and identical
`onSave`/`onClose` event sequences; `isNew` only selects the dialog title. -/
theorem claim_C9 (p : Props) (b1 b2 : Bool) (acts : List Action) :
    run (initState { p with isNew := b1 }) (acts.map (withIsNew b1))
      = run (initState { p with isNew := b2 }) (acts.map (withIsNew b2))
    ∧ (∀ s d, (render { p with isNew := b1 } s d).title
        = if b1 then "Nova Atividade" else "Editar Horário") := by
  constructor
  · have e1 : initState { p with isNew := b1 } = initState p := rfl
    have e2 : initState { p with isNew := b2 } = initState p := rfl
    rw [e1, e2, run_withIsNew b1 acts, run_withIsNew b2 acts]
  · intro s d
    rfl

/-- Concrete props without a professional, for the C10 witness. -/
def wProps10 : Props :=
  { isOpen := true, professional := none, timeSlot := none, currentActivity := none
    weekday := WeekDay.quinta, isNew := false }

/-- C10: with no professional, the draft's `professionalId` is the concrete
value `0` — at the initial default values and after every open reset — and
`0` is non-positive. -/
theorem claim_C10 (p : Props) (h : p.professional = none) :
    (initState p).form.professionalId = 0
    ∧ (∀ s : ModalState, p.isOpen = true →
        ((step s (Action.propsChange p)).1).form.professionalId = 0)
    ∧ (initState p).form.professionalId ≤ 0 := by
  have h0 : (formFromProps p).professionalId = 0 := by
    simp [formFromProps, jsOrInt, h]
  refine ⟨h0, ?_, le_of_eq h0⟩
  intro s hop
  have hr : (step s (Action.propsChange p)).1
      = { selectedActivity := propActivityValue p, form := formFromProps p
          errors := noErrors } := by
    simp [step, applyEffect, hop]
  rw [hr]
  exact h0

/-- Witness for C10 at concrete props with no professional. -/
theorem claim_C10_witness :
    (initState wProps10).form.professionalId = 0
    ∧ ((step wState1 (Action.propsChange wProps10)).1).form.professionalId = 0
    ∧ (initState wProps10).form.professionalId ≤ 0 := by
  have h := claim_C10 wProps10 rfl
  exact ⟨h.1, h.2.1 wState1 rfl, h.2.2⟩

end EditScheduleModal
